import Mathlib

/-!
Shallow embedding of the batch orchestrator in
`src/bespokelabs/curator/request_processor/openai_batch_request_processor.py`,
together with theorems settling the specification claims about it.

Python sets are modelled as `Finset String`, Python ints as `Int` (request
counters may be decremented), dicts built by literal insertion as association
lists in insertion order, and raised exceptions (including failed `assert`
statements) as `Option`/`Except` results.  Remote collaborators (the OpenAI
client, `litellm.completion_cost`, `parse_response_message` from the base
request processor module, Python `str()` rendering) are taken as explicit
function parameters, and the provider calls a code path issues are recorded
in an explicit trace list.
-/

namespace Curator

/-- Source constant `MAX_REQUESTS_PER_BATCH = 50_000`. -/
def MAX_REQUESTS_PER_BATCH : Nat := 50000

/-- Source constant `MAX_BYTES_PER_BATCH = 200 * 1024 * 1024`. -/
def MAX_BYTES_PER_BATCH : Nat := 200 * 1024 * 1024

/-- The `request_counts` field of an OpenAI `Batch` object. -/
structure RequestCounts where
  total : Int
  completed : Int
  failed : Int
deriving DecidableEq, Repr

/-- The fields of an OpenAI `Batch` object that the orchestrator reads.
`metadata_request_file_name` is `batch.metadata["request_file_name"]`;
`output_file_id` and `error_file_id` are `None`-able, and Python truthiness
on them is modelled by `Option.isSome` (provider ids are non-empty). -/
structure Batch where
  id : String
  status : String
  request_counts : RequestCounts
  input_file_id : String
  output_file_id : Option String
  error_file_id : Option String
  metadata_request_file_name : String
deriving DecidableEq, Repr

/-- The `BatchStatusTracker` dataclass: four lifecycle buckets plus counters.
`batch_id_to_request_file_name` is declared in the source dataclass (and never
written by any of the operations below, as in the source). -/
structure BatchStatusTracker where
  n_total_batches : Int
  unsubmitted_request_files : Finset String
  submitted_batch_ids : Finset String
  finished_batch_ids : Finset String
  downloaded_batch_ids : Finset String
  n_total_requests : Int
  n_finished_requests : Int
  n_downloaded_requests : Int
  batch_id_to_request_file_name : List (String × String)
deriving DecidableEq

/-- The dataclass defaults: empty sets, zero counters. -/
def initialTracker : BatchStatusTracker :=
  { n_total_batches := 0
    unsubmitted_request_files := ∅
    submitted_batch_ids := ∅
    finished_batch_ids := ∅
    downloaded_batch_ids := ∅
    n_total_requests := 0
    n_finished_requests := 0
    n_downloaded_requests := 0
    batch_id_to_request_file_name := [] }

/-- Source `BatchStatusTracker.mark_as_submitted`.  The source `assert request_file in
self.unsubmitted_request_files` is modelled by returning `none` when the
precondition fails (an `AssertionError` aborts the caller). -/
def mark_as_submitted (t : BatchStatusTracker) (request_file : String)
    (batch_object : Batch) : Option BatchStatusTracker :=
  if request_file ∈ t.unsubmitted_request_files then
    some { t with
      unsubmitted_request_files := t.unsubmitted_request_files.erase request_file
      submitted_batch_ids := insert batch_object.id t.submitted_batch_ids
      n_total_batches := t.n_total_batches + 1
      n_total_requests := t.n_total_requests + batch_object.request_counts.total }
  else
    none

/-- Source `BatchStatusTracker.mark_as_finished`: guarded by membership in the
submitted set, otherwise a no-op. -/
def mark_as_finished (t : BatchStatusTracker) (batch_object : Batch) :
    BatchStatusTracker :=
  if batch_object.id ∈ t.submitted_batch_ids then
    { t with
      submitted_batch_ids := t.submitted_batch_ids.erase batch_object.id
      finished_batch_ids := insert batch_object.id t.finished_batch_ids
      n_finished_requests := t.n_finished_requests +
        (batch_object.request_counts.completed + batch_object.request_counts.failed) }
  else
    t

/-- Source `BatchStatusTracker.mark_as_downloaded`: guarded by membership in the
finished set, otherwise a no-op. -/
def mark_as_downloaded (t : BatchStatusTracker) (batch_object : Batch) :
    BatchStatusTracker :=
  if batch_object.id ∈ t.finished_batch_ids then
    let n_requests := batch_object.request_counts.completed +
      batch_object.request_counts.failed
    { t with
      finished_batch_ids := t.finished_batch_ids.erase batch_object.id
      downloaded_batch_ids := insert batch_object.id t.downloaded_batch_ids
      n_downloaded_requests := t.n_downloaded_requests + n_requests
      n_finished_requests := t.n_finished_requests - n_requests }
  else
    t

/-- Splitting a character list at a separator character, the groups in
order; the model of Python `str.split` for the one-character separators used
below. -/
def splitOnChar (sep : Char) : List Char → List (List Char)
  | [] => [[]]
  | c :: rest =>
      match splitOnChar sep rest with
      | [] => [[]]
      | g :: gs => if c = sep then [] :: g :: gs else (c :: g) :: gs

/-- Module-level helper `request_file_to_response_file`: take the basename
(`split("/")[-1]`), drop everything up to and including the first underscore
(`split("_", 1)[1]`), and place it under `responses_` in the working
directory. -/
def request_file_to_response_file (request_file : String)
    (working_dir : String) : String :=
  let base := String.mk ((splitOnChar (Char.ofNat 47) request_file.data).getLastD [])
  let groups := (splitOnChar (Char.ofNat 95) base.data).map String.mk
  let request_file_idx := String.intercalate "_" groups.tail
  working_dir ++ "/responses_" ++ request_file_idx

/-- The terminal statuses listed in `BatchManager.check_batch_status`. -/
def finished_statuses : List String :=
  ["completed", "failed", "expired", "cancelled"]

/-- The in-progress statuses listed in `BatchManager.check_batch_status`. -/
def in_progress_statuses : List String :=
  ["validating", "finalizing", "cancelling", "in_progress"]

/-- Tracker effect of `BatchManager.check_batch_status`, given the batch
object the provider retrieval returned.  The source unconditionally adds
`completed + failed` to `n_finished_requests`, and when the status is
terminal moves the id from the submitted to the finished set and returns the
batch for download (the poll loop only calls this on ids of the submitted
set, so the source `set.remove` is modelled by `Finset.erase`). -/
def check_batch_status (t : BatchStatusTracker) (batch : Batch) :
    BatchStatusTracker × Option Batch :=
  let t1 := { t with
    n_finished_requests := t.n_finished_requests +
      (batch.request_counts.completed + batch.request_counts.failed) }
  if batch.status ∈ finished_statuses then
    ({ t1 with
        submitted_batch_ids := t1.submitted_batch_ids.erase batch.id
        finished_batch_ids := insert batch.id t1.finished_batch_ids },
     some batch)
  else
    (t1, none)

/-- A provider (OpenAI client) call issued by the orchestrator. -/
inductive ProviderCall where
  | uploadFile (content : String)
  | createBatch (input_file_id : String)
  | retrieveBatch (batch_id : String)
  | cancelBatch (batch_id : String)
  | downloadFile (file_id : String)
  | deleteFile (file_id : String)
deriving DecidableEq, Repr

/-- Source `BatchManager.create_batch_file`: reject more than
`MAX_REQUESTS_PER_BATCH` requests, then join the request lines with newlines,
encode, and reject a body of more than `MAX_BYTES_PER_BATCH` bytes.  A raised
`ValueError` is modelled as `Except.error`. -/
def create_batch_file (api_specific_requests : List String) :
    Except String String :=
  let n_requests := api_specific_requests.length
  if n_requests > MAX_REQUESTS_PER_BATCH then
    .error "requests_over_max"
  else
    let file_content := String.intercalate "\n" api_specific_requests
    let file_content_size := file_content.utf8ByteSize
    if file_content_size > MAX_BYTES_PER_BATCH then
      .error "bytes_over_max"
    else
      .ok file_content

/-- Source `BatchManager.submit_batch`: build the batch file, then upload it and
create the batch.  `batch_object` stands for the object the provider returns
from the create call.  The second component records the provider calls the
path issued; a `create_batch_file` error propagates before any call.  On
success the source then appends to the submitted journal and performs the two
tracker updates of lines 618-619. -/
def submit_batch (t : BatchStatusTracker) (requests : List String)
    (batch_object : Batch) :
    Except String BatchStatusTracker × List ProviderCall :=
  match create_batch_file requests with
  | .error e => (.error e, [])
  | .ok file_content =>
      (.ok { t with
          n_total_requests := t.n_total_requests + requests.length
          submitted_batch_ids := insert batch_object.id t.submitted_batch_ids },
       [.uploadFile file_content, .createBatch batch_object.input_file_id])

/-- Source `BatchManager.download_batch`, reduced to which provider file (if any) it
downloads: a `completed` batch with an output file id yields the output file,
a `failed` batch with an error file id yields the error file, and every other
terminal case (`failed` without an error file, `cancelled`, `expired`, or
`completed` without an output file) yields nothing. -/
def download_batch_content (batch : Batch) : Option String :=
  if batch.status = "completed" ∧ batch.output_file_id.isSome then
    batch.output_file_id
  else if batch.status = "failed" ∧ batch.error_file_id.isSome then
    batch.error_file_id
  else
    none

/-- Tracker effect and result of `BatchManager.download_batch_to_response_file`:
when `download_batch` produced no content the function returns `None` at once
and the tracker is untouched; otherwise it writes the response file, appends
to the downloaded journal, and calls `mark_as_downloaded`. -/
def download_batch_to_response_file (working_dir : String)
    (t : BatchStatusTracker) (batch : Batch) :
    BatchStatusTracker × Option String :=
  match download_batch_content batch with
  | none => (t, none)
  | some _ =>
      (mark_as_downloaded t batch,
       some (request_file_to_response_file batch.metadata_request_file_name
              working_dir))

/-- One journal line of `BatchManager.track_already_downloaded_batches`:
`fs` is the set of paths that exist on disk.  The source asserts that the
referenced request file is still unsubmitted and that the derived response
file exists, then marks the file submitted, finished and downloaded; a failed
assertion aborts the scan (`none`). -/
def track_already_downloaded_line (working_dir : String) (fs : Finset String)
    (t : BatchStatusTracker) (batch_object : Batch) :
    Option BatchStatusTracker :=
  let request_file := batch_object.metadata_request_file_name
  let response_file := request_file_to_response_file request_file working_dir
  if request_file ∈ t.unsubmitted_request_files then
    if response_file ∈ fs then
      (mark_as_submitted t request_file batch_object).map fun t1 =>
        mark_as_downloaded (mark_as_finished t1 batch_object) batch_object
    else
      none
  else
    none

/-- Source `BatchManager.track_already_downloaded_batches` over the concatenated
lines of the downloaded journal files, aborting at the first failed
assertion. -/
def track_already_downloaded_batches (working_dir : String)
    (fs : Finset String) (t : BatchStatusTracker) (lines : List Batch) :
    Option BatchStatusTracker :=
  lines.foldlM (track_already_downloaded_line working_dir fs) t

/-- One journal line of `BatchManager.track_already_submitted_batches`:
`retrieved` is the batch object the re-retrieval returned; the tracker is
updated only when the request file is still unsubmitted (which is exactly the
precondition of `mark_as_submitted`, so the `getD` default is never taken). -/
def track_already_submitted_line (t : BatchStatusTracker)
    (request_file_name : String) (retrieved : Batch) : BatchStatusTracker :=
  if request_file_name ∈ t.unsubmitted_request_files then
    (mark_as_submitted t request_file_name retrieved).getD t
  else
    t

/-- Source `BatchManager.track_already_submitted_batches`: fold the submitted journal
lines, then add the number of still-unsubmitted request files to
`n_total_batches` (source line 711). -/
def track_already_submitted_batches (t : BatchStatusTracker)
    (journal : List (String × Batch)) : BatchStatusTracker :=
  let t1 := journal.foldl (fun s e => track_already_submitted_line s e.1 e.2) t
  { t1 with
    n_total_batches := t1.n_total_batches + t1.unsubmitted_request_files.card }

/-- Source `BatchManager.cancel_batch`: retrieve the batch; an already `completed`
batch is not cancelled, any other batch gets a cancel call.  `retrieve` maps a
batch id to the object the provider returns. -/
def cancel_batch_calls (retrieve : String → Batch) (batch_id : String) :
    List ProviderCall :=
  .retrieveBatch batch_id ::
    (if (retrieve batch_id).status = "completed" then []
     else [.cancelBatch batch_id])

/-- Source `BatchManager.cancel_batches`: when the submitted batch objects journal is
absent from the working directory only a warning is logged; otherwise every
journaled batch is retrieved and (unless completed) cancelled, and the journal
is renamed with a `.cancelled` suffix.  Returns the provider calls issued and
the renames performed. -/
def cancel_batches (retrieve : String → Batch) (fs : Finset String)
    (submitted_batch_objects_file : String) (journal_ids : List String) :
    List ProviderCall × List (String × String) :=
  if submitted_batch_objects_file ∈ fs then
    ((journal_ids.map (cancel_batch_calls retrieve)).flatten,
     [(submitted_batch_objects_file,
       submitted_batch_objects_file ++ ".cancelled")])
  else
    ([], [])

/-- JSON values, with objects as association lists in insertion order
(mirroring Python dict literals) and numbers as rationals. -/
inductive JValue where
  | jstr (s : String) : JValue
  | jnum (q : ℚ) : JValue
  | jarr (elems : List JValue) : JValue
  | jobj (fields : List (String × JValue)) : JValue

/-- Association-list lookup on a JSON object's field list, first match wins
(Python dict keys are unique, so this agrees with dict indexing). -/
def jlookup : List (String × JValue) → String → Option JValue
  | [], _ => none
  | (k, v) :: rest, key => if k = key then some v else jlookup rest key

/-- The fields of `GenericRequest` the batch processor reads.  `messages` and
`response_format` are opaque JSON blobs; `original_row_idx` is the stable
integer row index. -/
structure GenericRequest where
  model : String
  messages : JValue
  response_format : Option JValue
  original_row_idx : Int

/-- The optional generation parameters of `OpenAIBatchRequestProcessor`
(Python floats carried as rationals; the orchestrator never computes with
them). -/
structure ProcessorConfig where
  temperature : Option ℚ
  top_p : Option ℚ
  presence_penalty : Option ℚ
  frequency_penalty : Option ℚ

/-- Source `OpenAIBatchRequestProcessor.create_api_specific_request`: the outer
request dict has exactly the keys `custom_id`, `method`, `url`, `body`, which
this structure mirrors; `body` keeps the dict's insertion order. -/
structure APISpecificRequest where
  custom_id : String
  method : String
  url : String
  body : List (String × JValue)

/-- Source `OpenAIBatchRequestProcessor.create_api_specific_request`, translated
clause by clause: the body starts from `model` and `messages` (plus the
`response_format` envelope when the request carries one, without `strict`),
then each configured generation parameter is appended in source order. -/
def create_api_specific_request (cfg : ProcessorConfig)
    (generic_request : GenericRequest) : APISpecificRequest :=
  let body0 : List (String × JValue) :=
    match generic_request.response_format with
    | some schema =>
        [("model", .jstr generic_request.model),
         ("messages", generic_request.messages),
         ("response_format", .jobj
           [("type", .jstr "json_schema"),
            ("json_schema", .jobj
              [("name", .jstr "output_schema"),
               ("schema", schema)])])]
    | none =>
        [("model", .jstr generic_request.model),
         ("messages", generic_request.messages)]
  let body1 := body0 ++
    (match cfg.temperature with
     | some v => [("temperature", JValue.jnum v)]
     | none => [])
  let body2 := body1 ++
    (match cfg.top_p with
     | some v => [("top_p", JValue.jnum v)]
     | none => [])
  let body3 := body2 ++
    (match cfg.presence_penalty with
     | some v => [("presence_penalty", JValue.jnum v)]
     | none => [])
  let body4 := body3 ++
    (match cfg.frequency_penalty with
     | some v => [("frequency_penalty", JValue.jnum v)]
     | none => [])
  { custom_id := toString generic_request.original_row_idx
    method := "POST"
    url := "/v1/chat/completions"
    body := body4 }

/-- The `TokenUsage` record built in the 200 branch. -/
structure TokenUsage where
  prompt_tokens : Int
  completion_tokens : Int
  total_tokens : Int
deriving DecidableEq, Repr

/-- One line of a downloaded batch output file, as the response transformer
reads it: the echoed custom id (already parsed back to an integer), the
per-request HTTP status code, the `usage` counters (absent fields default to
0 via `.get`), and `choices[0].message.content`.  The body fields are only
read in the 200 branch. -/
structure RawResponse where
  custom_id : Int
  status_code : Int
  usage_prompt_tokens : Option Int
  usage_completion_tokens : Option Int
  usage_total_tokens : Option Int
  content : String

/-- The fields of `GenericResponse` the claims are about. -/
structure GenericResponse where
  response_message : Option String
  response_errors : List String
  token_usage : Option TokenUsage
  response_cost : Option ℚ
  generic_request : GenericRequest

/-- The warning and error text of the non-200 branch:
`f"Request {generic_request} failed with status code {...}"`, with `show_req`
standing for Python string rendering of the request. -/
def failed_status_message (show_req : GenericRequest → String)
    (generic_request : GenericRequest) (status_code : Int) : String :=
  "Request " ++ show_req generic_request ++ " failed with status code " ++
    toString status_code

/-- Per-line body of `generic_response_file_from_responses`.  Parameters stand
for the collaborators outside this module: `unit_cost` is
`litellm.completion_cost(model, prompt, completion)`, `parse` is
`parse_response_message` from the base request processor, `show_req` and
`show_messages` are Python `str()` rendering.  A non-200 line yields the bare
failure record; a 200 line computes token usage (absent usage fields default
to 0), the 50%-discounted cost, and the parsed message with its errors. -/
def generic_response_of_line (unit_cost : String → String → String → ℚ)
    (parse : String → Option String × List String)
    (show_req : GenericRequest → String) (show_messages : JValue → String)
    (generic_request : GenericRequest) (raw : RawResponse) : GenericResponse :=
  if raw.status_code ≠ 200 then
    { response_message := none
      response_errors :=
        [failed_status_message show_req generic_request raw.status_code]
      token_usage := none
      response_cost := none
      generic_request := generic_request }
  else
    let token_usage : TokenUsage :=
      { prompt_tokens := raw.usage_prompt_tokens.getD 0
        completion_tokens := raw.usage_completion_tokens.getD 0
        total_tokens := raw.usage_total_tokens.getD 0 }
    let cost : ℚ :=
      unit_cost generic_request.model (show_messages generic_request.messages)
        raw.content * (1 / 2)
    let parsed := parse raw.content
    { response_message := parsed.1
      response_errors := parsed.2
      token_usage := some token_usage
      response_cost := some cost
      generic_request := generic_request }

/-- Concrete batch for the C1 trace: resumed from the submitted journal,
2 requests, first retrieval sees 1 completed while still in progress. -/
def c1Batch1 : Batch :=
  { id := "batch_1"
    status := "in_progress"
    request_counts := { total := 2, completed := 1, failed := 0 }
    input_file_id := "file-in"
    output_file_id := none
    error_file_id := none
    metadata_request_file_name := "wd/requests_0.jsonl" }

/-- Second retrieval of the same batch: finalizing, both requests done. -/
def c1Batch2 : Batch :=
  { c1Batch1 with
    status := "finalizing"
    request_counts := { total := 2, completed := 2, failed := 0 } }

/-- Tracker seeded with the single request file, as at the top of
`submit_batches_from_request_files`. -/
def c1Seeded : BatchStatusTracker :=
  { initialTracker with unsubmitted_request_files := {"wd/requests_0.jsonl"} }

/-- Tracker after resuming from a submitted journal holding the one batch. -/
def c1AfterResume : BatchStatusTracker :=
  track_already_submitted_batches c1Seeded [("wd/requests_0.jsonl", c1Batch1)]

/-- Tracker after the first poll cycle. -/
def c1AfterPoll1 : BatchStatusTracker :=
  (check_batch_status c1AfterResume c1Batch1).1

/-- Tracker after the second poll cycle. -/
def c1AfterPoll2 : BatchStatusTracker :=
  (check_batch_status c1AfterPoll1 c1Batch2).1

/-- Concrete tracker for the C2 counterexample: a cancelled batch already in
the finished set. -/
def c2Tracker : BatchStatusTracker :=
  { initialTracker with
    finished_batch_ids := {"batch_1"}
    n_finished_requests := 2
    n_total_requests := 2
    n_total_batches := 1 }

/-- The cancelled batch of the C2 counterexample. -/
def c2Batch : Batch :=
  { id := "batch_1"
    status := "cancelled"
    request_counts := { total := 2, completed := 1, failed := 1 }
    input_file_id := "file-in"
    output_file_id := none
    error_file_id := none
    metadata_request_file_name := "wd/requests_0.jsonl" }

/-- Concrete tracker for the C2 witness. -/
def w2Tracker : BatchStatusTracker :=
  { initialTracker with finished_batch_ids := {"batch_2"} }

/-- Completed batch with an output file, for the C2 witness. -/
def w2Batch : Batch :=
  { id := "batch_2"
    status := "completed"
    request_counts := { total := 2, completed := 2, failed := 0 }
    input_file_id := "file-in-2"
    output_file_id := some "file-out-2"
    error_file_id := none
    metadata_request_file_name := "wd/requests_2.jsonl" }

/-- Cancelled batch, for the untouched direction of the C2 witness. -/
def w2BatchCancelled : Batch :=
  { w2Batch with
    id := "batch_2c"
    status := "cancelled"
    output_file_id := none }

/-- Concrete batch object for the C3 witness. -/
def w3Batch : Batch :=
  { id := "batch_3"
    status := "validating"
    request_counts := { total := 1, completed := 0, failed := 0 }
    input_file_id := "file-in-3"
    output_file_id := none
    error_file_id := none
    metadata_request_file_name := "wd/requests_3.jsonl" }

/-- Concrete journal batch for the C4 witness. -/
def w4Batch : Batch :=
  { id := "batch_4"
    status := "completed"
    request_counts := { total := 1, completed := 1, failed := 0 }
    input_file_id := "file-in-4"
    output_file_id := some "file-out-4"
    error_file_id := none
    metadata_request_file_name := "dir/requests_4.jsonl" }

/-- Concrete tracker for the C4 witness. -/
def w4Tracker : BatchStatusTracker :=
  { initialTracker with unsubmitted_request_files := {"dir/requests_4.jsonl"} }

/-- Concrete unsubmitted batch for the C5 witness. -/
def w5Batch : Batch :=
  { id := "batch_5"
    status := "validating"
    request_counts := { total := 3, completed := 0, failed := 0 }
    input_file_id := "file-in-5"
    output_file_id := none
    error_file_id := none
    metadata_request_file_name := "wd/requests_5.jsonl" }

/-- Concrete tracker for the C5 witness. -/
def w5Tracker : BatchStatusTracker :=
  { initialTracker with unsubmitted_request_files := {"wd/requests_5.jsonl"} }

/-- Concrete tracker for the C6 witness: one finished and one downloaded
batch, disjoint sets. -/
def w6Tracker : BatchStatusTracker :=
  { initialTracker with
    finished_batch_ids := {"batch_6a"}
    downloaded_batch_ids := {"batch_6b"} }

/-- A batch already finished, for the C6 witness. -/
def w6BatchFin : Batch :=
  { id := "batch_6a"
    status := "completed"
    request_counts := { total := 1, completed := 1, failed := 0 }
    input_file_id := "file-in-6"
    output_file_id := some "file-out-6"
    error_file_id := none
    metadata_request_file_name := "wd/requests_6.jsonl" }

/-- A batch already downloaded, for the C6 witness. -/
def w6BatchDl : Batch :=
  { w6BatchFin with id := "batch_6b" }

/-- Concrete request for the C7 and C9 witnesses. -/
def w7Request : GenericRequest :=
  { model := "gpt-4o-mini"
    messages := .jarr [.jobj [("role", .jstr "user"), ("content", .jstr "hi")]]
    response_format := none
    original_row_idx := 7 }

/-- A failed provider line (status 404) for the C7 witness. -/
def w7Raw : RawResponse :=
  { custom_id := 7
    status_code := 404
    usage_prompt_tokens := none
    usage_completion_tokens := none
    usage_total_tokens := none
    content := "" }

/-- A successful provider line (status 200, 100 prompt and 50 completion
tokens) for the C9 witness. -/
def w9Raw : RawResponse :=
  { custom_id := 7
    status_code := 200
    usage_prompt_tokens := some 100
    usage_completion_tokens := some 50
    usage_total_tokens := some 150
    content := "A" }

/-- Retrieval stub for the C10 witness. -/
def w10Batch : Batch :=
  { id := "batch_10"
    status := "in_progress"
    request_counts := { total := 1, completed := 0, failed := 0 }
    input_file_id := "file-in-10"
    output_file_id := none
    error_file_id := none
    metadata_request_file_name := "wd/requests_10.jsonl" }

/-- Claim C1: the spec asserts that at every observable point of a run
`n_downloaded_requests` is non-decreasing and
`n_finished_requests + n_downloaded_requests ≤ n_total_requests`.  The code
violates the bound: `check_batch_status` adds `completed + failed` to
`n_finished_requests` on every poll of the same batch.  In this legal trace a
2-request batch is resumed from the submitted journal (`n_total_requests`
becomes 2), the first poll retrieves it in progress with 1 request completed
(the batch stays in the submitted set, nothing is downloadable), and the
second poll retrieves it finalizing with 2 completed, after which
`n_finished_requests = 3 > 2 = n_total_requests`. -/
theorem polling_overcounts_finished_requests :
    c1AfterResume.n_total_requests = 2 ∧
    c1AfterPoll1.submitted_batch_ids = {"batch_1"} ∧
    (check_batch_status c1AfterResume c1Batch1).2 = none ∧
    c1AfterPoll2.n_finished_requests = 3 ∧
    c1AfterPoll2.n_downloaded_requests = 0 ∧
    c1AfterPoll2.n_total_requests = 2 ∧
    ¬ (c1AfterPoll2.n_finished_requests + c1AfterPoll2.n_downloaded_requests ≤
        c1AfterPoll2.n_total_requests) := by
  decide

/-- Claim C2 is false as stated: a `cancelled` batch (one of the four
terminal statuses) is not transitioned to downloaded by
`download_batch_to_response_file`; the function returns early because no
content was downloaded, and the batch id stays in the finished set. -/
theorem download_cancelled_batch_stays_finished :
    c2Batch.status ∈ finished_statuses ∧
    (download_batch_to_response_file "wd" c2Tracker c2Batch).1 = c2Tracker ∧
    c2Batch.id ∈
      (download_batch_to_response_file "wd" c2Tracker
        c2Batch).1.finished_batch_ids ∧
    c2Batch.id ∉
      (download_batch_to_response_file "wd" c2Tracker
        c2Batch).1.downloaded_batch_ids := by
  decide

/-- Claim C2 as amended: processing a terminal batch with
`download_batch_to_response_file` moves it from the finished to the
downloaded set exactly when the download produced content, i.e. when the
status is `completed` with an output file id present or `failed` with an
error file id present; in every other terminal case (`failed` without an
error file, `cancelled`, `expired`, `completed` without an output file) the
tracker is left unchanged and the function returns nothing. -/
theorem download_batch_transition (wd : String) (t : BatchStatusTracker)
    (b : Batch) (h : b.status ∈ finished_statuses) :
    ((download_batch_content b).isSome ↔
      (b.status = "completed" ∧ b.output_file_id.isSome) ∨
      (b.status = "failed" ∧ b.error_file_id.isSome))
    ∧ ((download_batch_content b).isSome → b.id ∈ t.finished_batch_ids →
      b.id ∉ (download_batch_to_response_file wd t b).1.finished_batch_ids ∧
      b.id ∈ (download_batch_to_response_file wd t b).1.downloaded_batch_ids)
    ∧ ((download_batch_content b).isNone →
      download_batch_to_response_file wd t b = (t, none)) := by
  refine ⟨?_, ?_, ?_⟩
  · unfold download_batch_content
    by_cases h1 : b.status = "completed" ∧ b.output_file_id.isSome
    · rw [if_pos h1]
      simp [h1]
    · rw [if_neg h1]
      by_cases h2 : b.status = "failed" ∧ b.error_file_id.isSome
      · rw [if_pos h2]
        simp [h1, h2]
      · rw [if_neg h2]
        simp [h1, h2]
  · intro hsome hfin
    obtain ⟨c, hc⟩ := Option.isSome_iff_exists.mp hsome
    unfold download_batch_to_response_file
    rw [hc]
    simp only
    rw [mark_as_downloaded, if_pos hfin]
    exact ⟨Finset.not_mem_erase _ _, Finset.mem_insert_self _ _⟩
  · intro hnone
    unfold download_batch_to_response_file
    rw [Option.isNone_iff_eq_none.mp hnone]

/-- Witness for the amended claim C2 at concrete inputs: a completed batch
with an output file moves from finished to downloaded, a cancelled batch
leaves the tracker untouched. -/
theorem download_batch_transition_witness :
    (w2Batch.id ∉
      (download_batch_to_response_file "wd" w2Tracker
        w2Batch).1.finished_batch_ids ∧
     w2Batch.id ∈
      (download_batch_to_response_file "wd" w2Tracker
        w2Batch).1.downloaded_batch_ids) ∧
    download_batch_to_response_file "wd" w2Tracker w2BatchCancelled =
      (w2Tracker, none) :=
  ⟨(download_batch_transition "wd" w2Tracker w2Batch (by decide)).2.1
      (by decide) (by decide),
   (download_batch_transition "wd" w2Tracker w2BatchCancelled (by decide)).2.2
      (by decide)⟩

/-- Claim C3: batch submission raises an error before any upload call is
issued whenever the request list has more than 50,000 entries or its
newline-joined encoded body exceeds 200 MiB (209,715,200 bytes); a list
within both limits raises no such error, and the upload and batch-create
calls follow. -/
theorem submit_batch_limit_enforcement (t : BatchStatusTracker)
    (reqs : List String) (b : Batch) :
    ((MAX_REQUESTS_PER_BATCH < reqs.length ∨
        MAX_BYTES_PER_BATCH < (String.intercalate "\n" reqs).utf8ByteSize) →
      (∃ e, (submit_batch t reqs b).1 = .error e) ∧
        (submit_batch t reqs b).2 = [])
    ∧ ((reqs.length ≤ MAX_REQUESTS_PER_BATCH ∧
        (String.intercalate "\n" reqs).utf8ByteSize ≤ MAX_BYTES_PER_BATCH) →
      ∃ t2, (submit_batch t reqs b).1 = .ok t2 ∧
        (submit_batch t reqs b).2 =
          [.uploadFile (String.intercalate "\n" reqs),
           .createBatch b.input_file_id]) := by
  constructor
  · intro h
    have herr : ∃ e, create_batch_file reqs = .error e := by
      unfold create_batch_file
      rcases h with h | h
      · rw [if_pos h]
        exact ⟨_, rfl⟩
      · by_cases hn : reqs.length > MAX_REQUESTS_PER_BATCH
        · rw [if_pos hn]
          exact ⟨_, rfl⟩
        · rw [if_neg hn]
          rw [if_pos h]
          exact ⟨_, rfl⟩
    obtain ⟨e, he⟩ := herr
    unfold submit_batch
    rw [he]
    exact ⟨⟨e, rfl⟩, rfl⟩
  · intro ⟨h1, h2⟩
    have hok : create_batch_file reqs = .ok (String.intercalate "\n" reqs) := by
      unfold create_batch_file
      rw [if_neg (by omega), if_neg (by omega)]
    unfold submit_batch
    rw [hok]
    exact ⟨_, rfl, rfl⟩

/-- Witness for claim C3: a one-line batch file passes and is uploaded, a
50,001-line batch file is rejected with no provider call. -/
theorem submit_batch_limit_enforcement_witness :
    (∃ t2, (submit_batch initialTracker ["hello"] w3Batch).1 = .ok t2 ∧
      (submit_batch initialTracker ["hello"] w3Batch).2 =
        [.uploadFile (String.intercalate "\n" ["hello"]),
         .createBatch w3Batch.input_file_id]) ∧
    ((∃ e, (submit_batch initialTracker (List.replicate 50001 "x") w3Batch).1 =
        .error e) ∧
      (submit_batch initialTracker (List.replicate 50001 "x") w3Batch).2 =
        []) :=
  ⟨(submit_batch_limit_enforcement initialTracker ["hello"] w3Batch).2
      ⟨by decide, by decide⟩,
   (submit_batch_limit_enforcement initialTracker (List.replicate 50001 "x")
      w3Batch).1
      (Or.inl (by norm_num [MAX_REQUESTS_PER_BATCH]))⟩

/-- Claim C4: during the resume scan a journal line marks its request file as
already completed (submitted, finished and downloaded in one step) exactly
when the file is still in the unsubmitted set and the derived response file
exists on disk; if either condition fails the line yields a consistency
error and the scan of the remaining lines aborts rather than continuing. -/
theorem track_already_downloaded_consistency (wd : String) (fs : Finset String)
    (t : BatchStatusTracker) (b : Batch) (rest : List Batch) :
    (¬ (b.metadata_request_file_name ∈ t.unsubmitted_request_files ∧
        request_file_to_response_file b.metadata_request_file_name wd ∈ fs) →
      track_already_downloaded_line wd fs t b = none ∧
      track_already_downloaded_batches wd fs t (b :: rest) = none)
    ∧ (b.metadata_request_file_name ∈ t.unsubmitted_request_files →
       request_file_to_response_file b.metadata_request_file_name wd ∈ fs →
      ∃ t2, track_already_downloaded_line wd fs t b = some t2 ∧
        b.id ∈ t2.downloaded_batch_ids ∧
        b.metadata_request_file_name ∉ t2.unsubmitted_request_files) := by
  constructor
  · intro h
    have hline : track_already_downloaded_line wd fs t b = none := by
      unfold track_already_downloaded_line
      by_cases hA : b.metadata_request_file_name ∈ t.unsubmitted_request_files
      · rw [if_pos hA, if_neg (fun hB => h ⟨hA, hB⟩)]
      · rw [if_neg hA]
    refine ⟨hline, ?_⟩
    unfold track_already_downloaded_batches
    rw [List.foldlM_cons, hline]
    rfl
  · intro hA hB
    unfold track_already_downloaded_line
    rw [if_pos hA, if_pos hB, mark_as_submitted, if_pos hA]
    rw [Option.map_some']
    refine ⟨_, rfl, ?_, ?_⟩
    · rw [mark_as_finished, if_pos (Finset.mem_insert_self _ _)]
      rw [mark_as_downloaded, if_pos (Finset.mem_insert_self _ _)]
      exact Finset.mem_insert_self _ _
    · rw [mark_as_finished, if_pos (Finset.mem_insert_self _ _)]
      rw [mark_as_downloaded, if_pos (Finset.mem_insert_self _ _)]
      exact Finset.not_mem_erase _ _

/-- Witness for claim C4: with the response file on disk the scan marks the
batch downloaded, without it the scan aborts. -/
theorem track_already_downloaded_consistency_witness :
    (∃ t2, track_already_downloaded_line "wd" {"wd/responses_4.jsonl"}
        w4Tracker w4Batch = some t2 ∧
      w4Batch.id ∈ t2.downloaded_batch_ids ∧
      w4Batch.metadata_request_file_name ∉ t2.unsubmitted_request_files) ∧
    (track_already_downloaded_line "wd" ∅ w4Tracker w4Batch = none ∧
     track_already_downloaded_batches "wd" ∅ w4Tracker [w4Batch] = none) :=
  ⟨(track_already_downloaded_consistency "wd" {"wd/responses_4.jsonl"}
      w4Tracker w4Batch []).2 (by decide) (by decide),
   (track_already_downloaded_consistency "wd" ∅ w4Tracker w4Batch []).1
      (by decide)⟩

/-- Claim C5: when the request file is still unsubmitted,
`mark_as_submitted` removes it from the unsubmitted set, adds the batch id to
the submitted set, increments `n_total_batches` by exactly 1 and
`n_total_requests` by exactly `batch.request_counts.total`, leaving every
other field unchanged; when the file is not unsubmitted the assertion
fails. -/
theorem mark_as_submitted_spec (t : BatchStatusTracker) (rf : String)
    (b : Batch) :
    (rf ∈ t.unsubmitted_request_files →
      ∃ t2, mark_as_submitted t rf b = some t2 ∧
        t2.unsubmitted_request_files = t.unsubmitted_request_files.erase rf ∧
        rf ∉ t2.unsubmitted_request_files ∧
        t2.submitted_batch_ids = insert b.id t.submitted_batch_ids ∧
        b.id ∈ t2.submitted_batch_ids ∧
        t2.n_total_batches = t.n_total_batches + 1 ∧
        t2.n_total_requests = t.n_total_requests + b.request_counts.total ∧
        t2.finished_batch_ids = t.finished_batch_ids ∧
        t2.downloaded_batch_ids = t.downloaded_batch_ids ∧
        t2.n_finished_requests = t.n_finished_requests ∧
        t2.n_downloaded_requests = t.n_downloaded_requests)
    ∧ (rf ∉ t.unsubmitted_request_files → mark_as_submitted t rf b = none) := by
  constructor
  · intro h
    rw [mark_as_submitted, if_pos h]
    exact ⟨_, rfl, rfl, Finset.not_mem_erase _ _, rfl,
      Finset.mem_insert_self _ _, rfl, rfl, rfl, rfl, rfl, rfl⟩
  · intro h
    rw [mark_as_submitted, if_neg h]

/-- Witness for claim C5 at concrete inputs. -/
theorem mark_as_submitted_spec_witness :
    (∃ t2, mark_as_submitted w5Tracker "wd/requests_5.jsonl" w5Batch =
        some t2 ∧
      t2.n_total_batches = w5Tracker.n_total_batches + 1 ∧
      t2.n_total_requests =
        w5Tracker.n_total_requests + w5Batch.request_counts.total ∧
      w5Batch.id ∈ t2.submitted_batch_ids ∧
      "wd/requests_5.jsonl" ∉ t2.unsubmitted_request_files) ∧
    mark_as_submitted w5Tracker "missing.jsonl" w5Batch = none := by
  constructor
  · obtain ⟨t2, h⟩ :=
      (mark_as_submitted_spec w5Tracker "wd/requests_5.jsonl" w5Batch).1
        (by decide)
    exact ⟨t2, h.1, h.2.2.2.2.2.1, h.2.2.2.2.2.2.1, h.2.2.2.2.1, h.2.2.1⟩
  · exact (mark_as_submitted_spec w5Tracker "missing.jsonl" w5Batch).2
      (by decide)

/-- Claim C6: on a tracker whose lifecycle sets are disjoint (the tracker
invariant), `mark_as_finished` applied to a batch already finished or
downloaded leaves the entire tracker unchanged, and `mark_as_downloaded`
applied to a batch already downloaded leaves it unchanged; moreover each
operation applied twice equals the operation applied once, on every
tracker. -/
theorem mark_finished_mark_downloaded_idempotent (t : BatchStatusTracker)
    (b : Batch) :
    (Disjoint t.submitted_batch_ids t.finished_batch_ids →
      Disjoint t.submitted_batch_ids t.downloaded_batch_ids →
      (b.id ∈ t.finished_batch_ids ∨ b.id ∈ t.downloaded_batch_ids) →
      mark_as_finished t b = t)
    ∧ (Disjoint t.finished_batch_ids t.downloaded_batch_ids →
      b.id ∈ t.downloaded_batch_ids →
      mark_as_downloaded t b = t)
    ∧ mark_as_finished (mark_as_finished t b) b = mark_as_finished t b
    ∧ mark_as_downloaded (mark_as_downloaded t b) b =
        mark_as_downloaded t b := by
  refine ⟨?_, ?_, ?_, ?_⟩
  · intro h1 h2 h3
    have hns : b.id ∉ t.submitted_batch_ids := by
      intro hs
      rcases h3 with h | h
      · exact Finset.disjoint_left.mp h1 hs h
      · exact Finset.disjoint_left.mp h2 hs h
    rw [mark_as_finished, if_neg hns]
  · intro h1 h2
    have hnf : b.id ∉ t.finished_batch_ids := fun hf =>
      Finset.disjoint_left.mp h1 hf h2
    rw [mark_as_downloaded, if_neg hnf]
  · by_cases hm : b.id ∈ t.submitted_batch_ids <;>
      simp [mark_as_finished, hm, Finset.not_mem_erase]
  · by_cases hm : b.id ∈ t.finished_batch_ids <;>
      simp [mark_as_downloaded, hm, Finset.not_mem_erase]

/-- Witness for claim C6 at concrete inputs. -/
theorem mark_finished_mark_downloaded_idempotent_witness :
    mark_as_finished w6Tracker w6BatchFin = w6Tracker ∧
    mark_as_downloaded w6Tracker w6BatchDl = w6Tracker :=
  ⟨(mark_finished_mark_downloaded_idempotent w6Tracker w6BatchFin).1
      (by decide) (by decide) (Or.inl (by decide)),
   (mark_finished_mark_downloaded_idempotent w6Tracker w6BatchDl).2.1
      (by decide) (by decide)⟩

/-- Claim C7: a provider line whose status code is not 200 yields a
GenericResponse with no response message, exactly one response error (the
non-200 description), no token usage and no response cost. -/
theorem non_200_response_shape (unit_cost : String → String → String → ℚ)
    (parse : String → Option String × List String)
    (show_req : GenericRequest → String) (show_messages : JValue → String)
    (gr : GenericRequest) (raw : RawResponse) (h : raw.status_code ≠ 200) :
    (generic_response_of_line unit_cost parse show_req show_messages gr
        raw).response_message = none ∧
    (generic_response_of_line unit_cost parse show_req show_messages gr
        raw).response_errors =
      [failed_status_message show_req gr raw.status_code] ∧
    (generic_response_of_line unit_cost parse show_req show_messages gr
        raw).response_errors.length = 1 ∧
    (generic_response_of_line unit_cost parse show_req show_messages gr
        raw).token_usage = none ∧
    (generic_response_of_line unit_cost parse show_req show_messages gr
        raw).response_cost = none := by
  unfold generic_response_of_line
  rw [if_pos h]
  exact ⟨rfl, rfl, rfl, rfl, rfl⟩

/-- Witness for claim C7 at concrete inputs (a 404 line). -/
theorem non_200_response_shape_witness :
    (generic_response_of_line (fun _ _ _ => 0) (fun s => (some s, []))
        (fun _ => "GR") (fun _ => "MS") w7Request w7Raw).response_message =
      none ∧
    (generic_response_of_line (fun _ _ _ => 0) (fun s => (some s, []))
        (fun _ => "GR") (fun _ => "MS") w7Request w7Raw).response_errors =
      [failed_status_message (fun _ => "GR") w7Request 404] ∧
    (generic_response_of_line (fun _ _ _ => 0) (fun s => (some s, []))
        (fun _ => "GR") (fun _ => "MS") w7Request w7Raw).token_usage = none ∧
    (generic_response_of_line (fun _ _ _ => 0) (fun s => (some s, []))
        (fun _ => "GR") (fun _ => "MS") w7Request w7Raw).response_cost =
      none := by
  obtain ⟨h1, h2, h3, h4, h5⟩ :=
    non_200_response_shape (fun _ _ _ => 0) (fun s => (some s, []))
      (fun _ => "GR") (fun _ => "MS") w7Request w7Raw (by decide)
  exact ⟨h1, h2, h4, h5⟩

/-- Claim C8: the API-specific request has `custom_id` equal to the decimal
string of the row index, method POST, the chat completions url, and a body
holding exactly `model` and `messages` plus, each present exactly when
configured: the `json_schema` response-format envelope (name
`output_schema`, the raw schema, no `strict` key) and the four optional
generation parameters, omitted rather than nulled when unset. -/
theorem create_api_specific_request_shape (cfg : ProcessorConfig)
    (r : GenericRequest) :
    (create_api_specific_request cfg r).custom_id =
      toString r.original_row_idx ∧
    (create_api_specific_request cfg r).method = "POST" ∧
    (create_api_specific_request cfg r).url = "/v1/chat/completions" ∧
    (create_api_specific_request cfg r).body.map Prod.fst =
      ["model", "messages"] ++
        (match r.response_format with
         | some _ => ["response_format"] | none => []) ++
        (match cfg.temperature with
         | some _ => ["temperature"] | none => []) ++
        (match cfg.top_p with
         | some _ => ["top_p"] | none => []) ++
        (match cfg.presence_penalty with
         | some _ => ["presence_penalty"] | none => []) ++
        (match cfg.frequency_penalty with
         | some _ => ["frequency_penalty"] | none => []) ∧
    jlookup (create_api_specific_request cfg r).body "model" =
      some (.jstr r.model) ∧
    jlookup (create_api_specific_request cfg r).body "messages" =
      some r.messages ∧
    jlookup (create_api_specific_request cfg r).body "response_format" =
      r.response_format.map (fun schema => JValue.jobj
        [("type", .jstr "json_schema"),
         ("json_schema", .jobj
           [("name", .jstr "output_schema"), ("schema", schema)])]) ∧
    jlookup (create_api_specific_request cfg r).body "temperature" =
      cfg.temperature.map JValue.jnum ∧
    jlookup (create_api_specific_request cfg r).body "top_p" =
      cfg.top_p.map JValue.jnum ∧
    jlookup (create_api_specific_request cfg r).body "presence_penalty" =
      cfg.presence_penalty.map JValue.jnum ∧
    jlookup (create_api_specific_request cfg r).body "frequency_penalty" =
      cfg.frequency_penalty.map JValue.jnum := by
  rcases r with ⟨model, messages, rf, idx⟩
  rcases cfg with ⟨temp, topp, pres, freq⟩
  rcases rf with _ | sch <;> rcases temp with _ | tv <;>
    rcases topp with _ | pv <;> rcases pres with _ | prv <;>
    rcases freq with _ | fv <;>
    exact ⟨rfl, rfl, rfl, rfl, rfl, rfl, rfl, rfl, rfl, rfl, rfl⟩

/-- Claim C9: a 200 line reports a response cost of exactly one half of the
unit-cost oracle value at (model, rendered messages, completion content); in
particular a constant 0.002 oracle yields a reported cost within 1e-9 of
0.001. -/
theorem batch_cost_discount (unit_cost : String → String → String → ℚ)
    (parse : String → Option String × List String)
    (show_req : GenericRequest → String) (show_messages : JValue → String)
    (gr : GenericRequest) (raw : RawResponse) (h : raw.status_code = 200) :
    (generic_response_of_line unit_cost parse show_req show_messages gr
        raw).response_cost =
      some (unit_cost gr.model (show_messages gr.messages) raw.content *
        (1 / 2)) ∧
    ((∀ m p c, unit_cost m p c = 2 / 1000) →
      ∃ cost,
        (generic_response_of_line unit_cost parse show_req show_messages gr
          raw).response_cost = some cost ∧
        |cost - 1 / 1000| ≤ 1 / 1000000000) := by
  have hmain :
      (generic_response_of_line unit_cost parse show_req show_messages gr
        raw).response_cost =
      some (unit_cost gr.model (show_messages gr.messages) raw.content *
        (1 / 2)) := by
    unfold generic_response_of_line
    rw [if_neg (by simp [h])]
  refine ⟨hmain, fun horacle => ?_⟩
  refine ⟨_, hmain, ?_⟩
  rw [horacle]
  norm_num

/-- Witness for claim C9: a constant 0.002 unit-cost oracle yields a reported
cost of 0.001, well within the 1e-9 tolerance. -/
theorem batch_cost_discount_witness :
    ∃ cost,
      (generic_response_of_line (fun _ _ _ => 2 / 1000) (fun s => (some s, []))
        (fun _ => "GR") (fun _ => "MS") w7Request w9Raw).response_cost =
        some cost ∧
      |cost - 1 / 1000| ≤ 1 / 1000000000 :=
  (batch_cost_discount (fun _ _ _ => 2 / 1000) (fun s => (some s, []))
    (fun _ => "GR") (fun _ => "MS") w7Request w9Raw (by decide)).2
    (fun _ _ _ => rfl)

/-- Claim C10: when the submitted batch objects journal does not exist in the
working directory, `cancel_batches` issues no provider retrieve or cancel
calls and renames no file (and the tracker, which the source never touches on
this path, is unchanged). -/
theorem cancel_batches_no_journal (retrieve : String → Batch)
    (fs : Finset String) (journal_file : String) (ids : List String)
    (h : journal_file ∉ fs) :
    cancel_batches retrieve fs journal_file ids = ([], []) := by
  rw [cancel_batches, if_neg h]

/-- Witness for claim C10: with no journal on disk, no calls and no
renames. -/
theorem cancel_batches_no_journal_witness :
    cancel_batches (fun _ => w10Batch) ∅
      "wd/batch_objects_submitted_abcd.jsonl" ["batch_10"] = ([], []) :=
  cancel_batches_no_journal (fun _ => w10Batch) ∅
    "wd/batch_objects_submitted_abcd.jsonl" ["batch_10"] (by decide)

end Curator
